import Mathlib

/-!
Shallow embedding of the Smartbot scheduled content-posting bot
(`src/main.py`) and proofs about its selection, scheduling and
retry-dispatch logic.

Modelling conventions:
- An `Item` is an opaque content record; the Python code compares items by
  value (`post not in already_sent_today[post_type]`), so we model items as
  natural numbers with decidable equality.
- `already_sent_today` is the global tracker dict with the four fixed
  category keys; it is modelled as the `Tracker` structure and threaded
  explicitly through the functions that mutate it.  `save_sent_data`
  writes this dict to disk; persistence is represented by the tracker
  value returned by each operation.
- File I/O (`load_data`) is external: each function that calls it takes
  the outcome of that call as an `Except String (List Item)` argument
  (`Except.error` models the Python exception raised for a missing or
  malformed file).
- `random.sample` and `random.choice` are modelled by a seed-indexed
  selection (`sample`) respectively an index argument; quantifying over
  the seed/index quantifies over the possible random outcomes.
- The outcome of each attempt of the external Telegram send call is an
  oracle `failsAt : Nat → Bool` (`true` = that attempt raises).  Python
  exceptions are `Except.error`; a function that cannot propagate an
  exception returns `Except.ok` on every path.
-/

/-- A content item, compared by value as in the Python `in` test. -/
abbrev Item := Nat

/-- The four category keys of `already_sent_today`. -/
inductive Category where
  | forex
  | motivation
  | morning
  | weekend
deriving DecidableEq, Repr

/-- The `already_sent_today` dict: one list of previously sent items per
category key. -/
structure Tracker where
  forex : List Item
  motivation : List Item
  morning : List Item
  weekend : List Item
deriving DecidableEq, Repr

/-- Read `already_sent_today[c]`. -/
def Tracker.get (t : Tracker) : Category → List Item
  | Category.forex => t.forex
  | Category.motivation => t.motivation
  | Category.morning => t.morning
  | Category.weekend => t.weekend

/-- Write `already_sent_today[c] = l`. -/
def Tracker.set (t : Tracker) (c : Category) (l : List Item) : Tracker :=
  match c with
  | Category.forex => { t with forex := l }
  | Category.motivation => { t with motivation := l }
  | Category.morning => { t with morning := l }
  | Category.weekend => { t with weekend := l }

@[simp]
theorem Tracker.get_set_same (t : Tracker) (c : Category) (l : List Item) :
    (t.set c l).get c = l := by
  cases c <;> rfl

/-- Model of `random.sample(l, k)` for `k ≤ l.length`: the seed determines
which of the k-permutations of `l` is drawn (a mixed-radix decoding of the
seed picks one remaining element at a time), so quantifying over all seeds
covers every outcome `random.sample` can produce. -/
def sample (seed : Nat) (l : List Item) : Nat → List Item
  | 0 => []
  | k + 1 =>
    if h : 0 < l.length then
      l.get ⟨seed % l.length, Nat.mod_lt _ h⟩ ::
        sample (seed / l.length) (l.eraseIdx (seed % l.length)) k
    else []

/-- Every element drawn by `sample` comes from the input list. -/
theorem sample_mem {seed : Nat} {l : List Item} {k : Nat} {x : Item}
    (hx : x ∈ sample seed l k) : x ∈ l := by
  induction k generalizing seed l with
  | zero => simp [sample] at hx
  | succ k ih =>
    rw [sample] at hx
    by_cases h : 0 < l.length
    · simp only [h, dif_pos] at hx
      rcases List.mem_cons.mp hx with h1 | h2
      · exact h1 ▸ List.get_mem l _ _
      · exact (List.eraseIdx_sublist l (seed % l.length)).mem (ih h2)
    · simp [h] at hx

/-- `sample` draws exactly `k` items when `k ≤ l.length`. -/
theorem sample_length {seed : Nat} {l : List Item} {k : Nat}
    (hk : k ≤ l.length) : (sample seed l k).length = k := by
  induction k generalizing seed l with
  | zero => simp [sample]
  | succ k ih =>
    rw [sample]
    have h : 0 < l.length := by omega
    have hlen : (l.eraseIdx (seed % l.length)).length = l.length - 1 := by
      simp [List.length_eraseIdx, Nat.mod_lt _ h]
    simp only [h, dif_pos, List.length_cons]
    rw [ih (by omega)]

/-- Observable events of one `send_post` call: each send attempt (numbered
from 0), each backoff sleep with its duration in seconds, and the final
outcome (`success`, or `gaveUp` after exhausting retries). -/
inductive Event where
  | attempt (i : Nat)
  | sleep (d : Nat)
  | success
  | gaveUp
deriving DecidableEq, Repr

/-- The external Telegram send operation inside the `try` block of
`send_post` (`bot.send_photo` / `send_video` / `send_message`): attempt
number `i` raises an exception exactly when `failsAt i` is `true`. -/
def attemptSend (failsAt : Nat → Bool) (i : Nat) : Except String Unit :=
  if failsAt i then Except.error "send failed" else Except.ok ()

/-- `send_post(post, channel_id, retries, delay)`: try one send; on an
exception, if `retries > 0` sleep `delay` seconds and recurse with
`retries - 1` and `delay * 2`, otherwise log the terminal failure and
return.  The returned event list records the attempts, sleeps and outcome;
the `Except` layer carries any exception the call would propagate to its
caller (the body catches every exception, so every path is `Except.ok`). -/
def send_post (failsAt : Nat → Bool) (i : Nat) (retries : Nat) (delay : Nat) :
    Except String (List Event) :=
  match attemptSend failsAt i, retries with
  | Except.ok _, _ => Except.ok [Event.attempt i, Event.success]
  | Except.error _, 0 => Except.ok [Event.attempt i, Event.gaveUp]
  | Except.error _, r + 1 =>
    match send_post failsAt (i + 1) r (delay * 2) with
    | Except.ok evs => Except.ok (Event.attempt i :: Event.sleep delay :: evs)
    | Except.error e => Except.error e

/-- Number of send attempts recorded in an event list. -/
def countAttempts (evs : List Event) : Nat :=
  evs.countP fun e => match e with | Event.attempt _ => true | _ => false

/-- The sleep durations recorded in an event list, in order. -/
def sleepsOf (evs : List Event) : List Nat :=
  evs.filterMap fun e => match e with | Event.sleep d => some d | _ => none

/-- The event trace of `send_post` when every attempt fails: attempt,
sleep, attempt, sleep, ..., final attempt, give up. -/
def allFailLog : Nat → Nat → Nat → List Event
  | i, 0, _ => [Event.attempt i, Event.gaveUp]
  | i, r + 1, d => Event.attempt i :: Event.sleep d :: allFailLog (i + 1) r (d * 2)

theorem send_post_all_fail (failsAt : Nat → Bool) (hf : ∀ j, failsAt j = true)
    (i r d : Nat) : send_post failsAt i r d = Except.ok (allFailLog i r d) := by
  induction r generalizing i d with
  | zero => simp [send_post, attemptSend, hf, allFailLog]
  | succ r ih => simp [send_post, attemptSend, hf, allFailLog, ih]

/-- `get_random_posts(file_path, num_posts, post_type)`: load the data
file, filter out items already in the sent list, reset that list when
fewer items remain than requested, sample, extend the sent list with the
sample, persist, and return the sample.  `load` is the outcome of
`load_data(file_path)`; the updated tracker is returned alongside the
selected posts. -/
def get_random_posts (seed : Nat) (load : Except String (List Item))
    (num_posts : Nat) (post_type : Category) (t : Tracker) :
    Except String (List Item × Tracker) :=
  match load with
  | Except.error e => Except.error e
  | Except.ok data =>
    let available := data.filter fun p => !((t.get post_type).contains p)
    let st :=
      if available.length < num_posts then (t.set post_type [], data)
      else (t, available)
    let selected := sample seed st.2 (min num_posts st.2.length)
    Except.ok (selected, st.1.set post_type (st.1.get post_type ++ selected))

/-- Zero-pad a number to two digits, as `strftime` does for `%H` and
`%M`. -/
def pad2 (n : Nat) : String :=
  if n < 10 then "0" ++ toString n else toString n

/-- Format minute-offset `m` (minutes relative to midnight of the current
day, as produced by `datetime.replace(...) + timedelta(minutes=...)`) the
way `strftime("%H:%M")` renders the resulting datetime. -/
def fmtHM (m : Int) : String :=
  let md := (Int.emod m 1440).toNat
  pad2 (md / 60) ++ ":" ++ pad2 (md % 60)

/-- Day ordinal of the last representable date: `datetime.max` is
9999-12-31 23:59:59.999999, and `date(9999, 12, 31).toordinal()` is
3652059 (`toordinal` counts 0001-01-01, the day of `datetime.min`, as
day 1). -/
def maxOrdinal : Nat := 3652059

/-- Minutes from `datetime.min` (0001-01-01 00:00) to the minute of
`datetime.max` (9999-12-31 23:59): `(maxOrdinal - 1) * 1440 + 1439 =
5258964959`. -/
def maxDatetimeMinutes : Nat := (maxOrdinal - 1) * 1440 + 1439

/-- Whether comprehension element `i` of `get_time_intervals` overflows:
`datetime.now().replace(hour=start_hour, minute=0, second=0,
microsecond=0) + timedelta(minutes=i * interval)` raises `OverflowError`
exactly when the resulting datetime leaves the representable range, that
is, when its minutes-from-`datetime.min` — today's ordinal `todayOrd`
minus one in days, plus `start_hour` hours, plus the element's offset —
is negative or exceeds `maxDatetimeMinutes`.  (A `timedelta` too large
for its own constructor also raises `OverflowError` and is subsumed by
this condition, since the base datetime is always in range.) -/
def overflows (todayOrd : Nat) (start_hour interval : Int) (i : Nat) : Bool :=
  decide (((todayOrd : Int) - 1) * 1440 + start_hour * 60
      + Int.ofNat i * interval < 0)
  || decide ((maxDatetimeMinutes : Int) <
      ((todayOrd : Int) - 1) * 1440 + start_hour * 60
        + Int.ofNat i * interval)

/-- `get_time_intervals(start_hour, end_hour, num_posts)` as called when
`datetime.now()` falls on the day with ordinal `todayOrd` (the only
date-dependent behaviour is the overflow check): divide the span between
the two hours into `num_posts` equal gaps (Python floor division;
`num_posts = 0` raises `ZeroDivisionError` there) and render the
resulting times of day.  In the list comprehension, reached whenever
`num_posts ≥ 1`, `datetime.replace(hour=start_hour, ...)` raises
`ValueError` for an hour outside `0..23`, and the `timedelta` addition
raises `OverflowError` when any element's datetime leaves the
representable range.  `strftime("%H:%M")` of an in-range result depends
only on the offset modulo one day, so the rendered strings are
date-independent. -/
def get_time_intervals_at (todayOrd : Nat) (start_hour end_hour : Int)
    (num_posts : Nat) : Except String (List String) :=
  let total_minutes : Int := (end_hour - start_hour) * 60
  if num_posts = 0 then Except.error "ZeroDivisionError"
  else
    let interval_minutes : Int := Int.fdiv total_minutes num_posts
    if start_hour < 0 ∨ 23 < start_hour then Except.error "ValueError"
    else if (List.range num_posts).any
        (overflows todayOrd start_hour interval_minutes) then
      Except.error "OverflowError"
    else
      Except.ok ((List.range num_posts).map fun i =>
        fmtHM (start_hour * 60 + Int.ofNat i * interval_minutes))

/-- A fixed representable current-date ordinal used where a statement
does not quantify over the date: day 738886 is 2024-01-01.  With the
in-range hours the scheduler passes (8 and 20), no element can overflow
for any representable date, so results at this fixed date coincide with
results at every date. -/
def todayOrdinal : Nat := 738886

/-- `get_time_intervals` at the fixed current date `todayOrdinal`;
statements that depend on the date use `get_time_intervals_at`
directly. -/
def get_time_intervals (start_hour end_hour : Int) (num_posts : Nat) :
    Except String (List String) :=
  get_time_intervals_at todayOrdinal start_hour end_hour num_posts

/-- Observable events of the `schedule_post` dispatch loop: the
`asyncio.sleep(idx * 1800)` before each post, then the dispatch of that
post with the event log of its `send_post` call. -/
inductive SchedEvent where
  | pace (d : Nat)
  | dispatch (p : Item) (log : List Event)
deriving DecidableEq, Repr

/-- The pacing sleeps recorded in a scheduler event list, in order. -/
def paceList (evs : List SchedEvent) : List Nat :=
  evs.filterMap fun e => match e with | SchedEvent.pace d => some d | _ => none

/-- The `for idx, post in enumerate(posts)` loop of `schedule_post`:
sleep `idx * 1800` seconds, then `send_post(post, CHANNEL_ID)` with the
default retries.  `failsAt idx` is the attempt-failure oracle for the send
of post number `idx`. -/
def schedule_loop (failsAt : Nat → Nat → Bool) :
    Nat → List Item → Except String (List SchedEvent)
  | _, [] => Except.ok []
  | idx, p :: rest =>
    match send_post (failsAt idx) 0 3 5 with
    | Except.error e => Except.error e
    | Except.ok log =>
      match schedule_loop failsAt (idx + 1) rest with
      | Except.error e => Except.error e
      | Except.ok evs =>
        Except.ok (SchedEvent.pace (idx * 1800) :: SchedEvent.dispatch p log :: evs)

/-- `schedule_post(post_type, json_file, num_posts)`: select posts via
`get_random_posts`, compute the (unused) 8-to-20 time intervals, then
dispatch the posts sequentially with the pacing loop.  Returns the tracker
after selection, the selected posts and the dispatch events. -/
def schedule_post (seed : Nat) (failsAt : Nat → Nat → Bool)
    (load : Except String (List Item)) (num_posts : Nat) (c : Category)
    (t : Tracker) : Except String (Tracker × List Item × List SchedEvent) :=
  match get_random_posts seed load num_posts c t with
  | Except.error e => Except.error e
  | Except.ok (posts, t1) =>
    match get_time_intervals 8 20 num_posts with
    | Except.error e => Except.error e
    | Except.ok _intervals =>
      match schedule_loop failsAt 0 posts with
      | Except.error e => Except.error e
      | Except.ok evs => Except.ok (t1, posts, evs)

/-- `morning_post()`: load `morning_data.json`, pick one not-yet-sent item
with `random.choice` (which raises `IndexError` on an empty candidate
list), overwrite the morning sent list with just that item, send it, and
persist.  `choiceIdx` selects which candidate `random.choice` picks. -/
def morning_post (choiceIdx : Nat) (failsAt : Nat → Bool)
    (load : Except String (List Item)) (t : Tracker) :
    Except String (Tracker × Item × List Event) :=
  match load with
  | Except.error e => Except.error e
  | Except.ok data =>
    let available := data.filter fun p => !((t.get Category.morning).contains p)
    if h : 0 < available.length then
      let post := available.get ⟨choiceIdx % available.length, Nat.mod_lt _ h⟩
      let t1 := t.set Category.morning [post]
      match send_post failsAt 0 3 5 with
      | Except.error e => Except.error e
      | Except.ok log => Except.ok (t1, post, log)
    else Except.error "IndexError"

/-- `weekend_post()`: same shape as `morning_post`, on
`weekend_data.json` and the weekend sent list. -/
def weekend_post (choiceIdx : Nat) (failsAt : Nat → Bool)
    (load : Except String (List Item)) (t : Tracker) :
    Except String (Tracker × Item × List Event) :=
  match load with
  | Except.error e => Except.error e
  | Except.ok data =>
    let available := data.filter fun p => !((t.get Category.weekend).contains p)
    if h : 0 < available.length then
      let post := available.get ⟨choiceIdx % available.length, Nat.mod_lt _ h⟩
      let t1 := t.set Category.weekend [post]
      match send_post failsAt 0 3 5 with
      | Except.error e => Except.error e
      | Except.ok log => Except.ok (t1, post, log)
    else Except.error "IndexError"

/-- Per-day external environment of one iteration of the
`schedule_all_posts` loop: the outcomes of the two content-file loads, the
random seeds of the two selections, and the send-failure oracles of the
two dispatch loops. -/
structure CycleEnv where
  forexLoad : Except String (List Item)
  motivationLoad : Except String (List Item)
  forexSeed : Nat
  motivationSeed : Nat
  forexFails : Nat → Nat → Bool
  motivationFails : Nat → Nat → Bool

/-- One iteration of the `while True` body of `schedule_all_posts`:
`schedule_forex_posts()` then `schedule_motivation_posts()`, both with
`num_posts = 5`; no exception handler surrounds either call, so an
exception from the first aborts the iteration before the second runs. -/
def schedule_cycle (env : CycleEnv) (t : Tracker) :
    Except String (Tracker × List (Category × SchedEvent)) :=
  match schedule_post env.forexSeed env.forexFails env.forexLoad 5
      Category.forex t with
  | Except.error e => Except.error e
  | Except.ok (t1, _, ev1) =>
    match schedule_post env.motivationSeed env.motivationFails
        env.motivationLoad 5 Category.motivation t1 with
    | Except.error e => Except.error e
    | Except.ok (t2, _, ev2) =>
      Except.ok (t2, ev1.map (fun e => (Category.forex, e))
        ++ ev2.map (fun e => (Category.motivation, e)))

/-- `schedule_all_posts()` bounded to `days` iterations of its
`while True` loop (`env d` is day `d`'s external environment); an
uncaught exception in any cycle propagates and ends the loop, so no later
day runs. -/
def schedule_all_posts (env : Nat → CycleEnv) :
    Nat → Tracker → Except String (Tracker × List (Nat × Category × SchedEvent))
  | 0, t => Except.ok (t, [])
  | d + 1, t =>
    match schedule_cycle (env 0) t with
    | Except.error e => Except.error e
    | Except.ok (t1, ev) =>
      match schedule_all_posts (fun n => env (n + 1)) d t1 with
      | Except.error e => Except.error e
      | Except.ok (t2, evs) =>
        Except.ok (t2, ev.map (fun ce => (0, ce))
          ++ evs.map (fun dce => (dce.1 + 1, dce.2)))

/-! ### Helper lemmas shared by several claim theorems -/

theorem get_random_posts_marks_sent (seed n : Nat)
    (load : Except String (List Item)) (c : Category) (t : Tracker)
    (sel : List Item) (t' : Tracker)
    (h : get_random_posts seed load n c t = Except.ok (sel, t')) :
    ∀ p ∈ sel, p ∈ t'.get c := by
  cases load with
  | error e => simp [get_random_posts] at h
  | ok data =>
    simp only [get_random_posts, Except.ok.injEq, Prod.mk.injEq] at h
    obtain ⟨h1, h2⟩ := h
    intro p hp
    rw [← h2, Tracker.get_set_same]
    exact List.mem_append_right _ (h1 ▸ hp)

theorem schedule_post_selection (seed n : Nat) (fa : Nat → Nat → Bool)
    (load : Except String (List Item)) (c : Category) (t : Tracker)
    (r : Tracker × List Item × List SchedEvent)
    (hr : schedule_post seed fa load n c t = Except.ok r) :
    get_random_posts seed load n c t = Except.ok (r.2.1, r.1) := by
  unfold schedule_post at hr
  split at hr
  next e heq => exact absurd hr (by simp)
  next posts t1 heq =>
    split at hr
    next e heq2 => exact absurd hr (by simp)
    next ivs heq2 =>
      split at hr
      next e heq3 => exact absurd hr (by simp)
      next evs heq3 =>
        obtain rfl : r = (t1, posts, evs) := (Except.ok.inj hr).symm
        rw [heq]

theorem morning_post_sets_single (ci : Nat) (g : Nat → Bool)
    (load : Except String (List Item)) (t : Tracker)
    (m : Tracker × Item × List Event)
    (hm : morning_post ci g load t = Except.ok m) :
    m.1 = t.set Category.morning [m.2.1] := by
  cases load with
  | error e => simp [morning_post] at hm
  | ok data =>
    simp only [morning_post] at hm
    by_cases h :
        0 < (data.filter fun p => !((t.get Category.morning).contains p)).length
    · rw [dif_pos h] at hm
      cases hs : send_post g 0 3 5 with
      | error e => rw [hs] at hm; exact absurd hm (by simp)
      | ok log =>
        rw [hs] at hm
        obtain rfl := (Except.ok.inj hm).symm
        rfl
    · rw [dif_neg h] at hm
      exact absurd hm (by simp)

theorem weekend_post_sets_single (ci : Nat) (g : Nat → Bool)
    (load : Except String (List Item)) (t : Tracker)
    (w : Tracker × Item × List Event)
    (hw : weekend_post ci g load t = Except.ok w) :
    w.1 = t.set Category.weekend [w.2.1] := by
  cases load with
  | error e => simp [weekend_post] at hw
  | ok data =>
    simp only [weekend_post] at hw
    by_cases h :
        0 < (data.filter fun p => !((t.get Category.weekend).contains p)).length
    · rw [dif_pos h] at hw
      cases hs : send_post g 0 3 5 with
      | error e => rw [hs] at hw; exact absurd hw (by simp)
      | ok log =>
        rw [hs] at hw
        obtain rfl := (Except.ok.inj hw).symm
        rfl
    · rw [dif_neg h] at hw
      exact absurd hw (by simp)

/-! ### Claim theorems -/

/-- C2: when every send attempt of an item fails, `send_post` with the
default `retries = 3`, `delay = 5` performs the initial attempt and then
exactly 3 retries, sleeping 5, 10 and 20 seconds before the successive
retries, then gives up — and the call returns normally (`Except.ok`), so
no exception reaches its caller. -/
theorem c2_retry_schedule (failsAt : Nat → Bool)
    (hf : ∀ j, failsAt j = true) :
    send_post failsAt 0 3 5 =
      Except.ok [Event.attempt 0, Event.sleep 5, Event.attempt 1,
        Event.sleep 10, Event.attempt 2, Event.sleep 20, Event.attempt 3,
        Event.gaveUp] := by
  rw [send_post_all_fail failsAt hf]
  rfl

theorem c2_retry_schedule_witness :
    send_post (fun _ => true) 0 3 5 =
      Except.ok [Event.attempt 0, Event.sleep 5, Event.attempt 1,
        Event.sleep 10, Event.attempt 2, Event.sleep 20, Event.attempt 3,
        Event.gaveUp] :=
  c2_retry_schedule (fun _ => true) (fun _ => rfl)

/-- C3 counterexample: with every attempt failing, `send_post` at the
default `retries = 3` records 4 send attempts, not at most 3. -/
theorem c3_counterexample :
    ∃ evs, send_post (fun _ => true) 0 3 5 = Except.ok evs
      ∧ ¬ countAttempts evs ≤ 3 :=
  ⟨allFailLog 0 3 5, send_post_all_fail (fun _ => true) (fun _ => rfl) 0 3 5,
    by decide⟩

/-- C3 amended: for an item whose send always fails, `send_post` with
`retries = 3` performs exactly `3 + 1 = 4` send attempts in total (the
initial attempt plus one attempt per retry) before giving up. -/
theorem c3_attempts_amended (failsAt : Nat → Bool)
    (hf : ∀ j, failsAt j = true) :
    ∃ evs, send_post failsAt 0 3 5 = Except.ok evs
      ∧ countAttempts evs = 3 + 1 :=
  ⟨allFailLog 0 3 5, send_post_all_fail failsAt hf 0 3 5, by decide⟩

theorem c3_attempts_amended_witness :
    ∃ evs, send_post (fun _ => true) 0 3 5 = Except.ok evs
      ∧ countAttempts evs = 3 + 1 :=
  c3_attempts_amended (fun _ => true) (fun _ => rfl)

/-- C7: `get_time_intervals(8, 20, 5)` returns exactly the five times
08:00, 10:24, 12:48, 15:12, 17:36 (step `720 // 5 = 144` minutes). -/
theorem c7_time_intervals :
    get_time_intervals 8 20 5 =
      Except.ok ["08:00", "10:24", "12:48", "15:12", "17:36"] := by
  rfl

/-- C10 counterexample: `num_posts = 1 ≥ 1` does not guarantee a list of
time strings — with `start_hour = 24` the call fails (`datetime.replace`
rejects the hour) instead of returning a one-element list. -/
theorem c10_counterexample :
    get_time_intervals 24 30 1 = Except.error "ValueError"
      ∧ 1 ≤ (1 : Nat) :=
  ⟨rfl, le_refl 1⟩

/-- C10 amended: on every current date and for every `start_hour` and
`end_hour`, `num_posts = 0` fails with the division-by-zero error (not an
empty list); for `num_posts ≥ 1` with `start_hour` in the valid hour
range `0..23`, the call returns a list of exactly `num_posts` time
strings when no element's datetime overflows the representable range,
and fails with the overflow error when some element's does. -/
theorem c10_totality_amended (todayOrd : Nat) (start_hour end_hour : Int)
    (num_posts : Nat) :
    get_time_intervals_at todayOrd start_hour end_hour 0 =
      Except.error "ZeroDivisionError"
    ∧ (1 ≤ num_posts → 0 ≤ start_hour → start_hour ≤ 23 →
        (∀ i, i < num_posts → overflows todayOrd start_hour
          (Int.fdiv ((end_hour - start_hour) * 60) num_posts) i = false) →
        ∃ l, get_time_intervals_at todayOrd start_hour end_hour num_posts =
          Except.ok l ∧ l.length = num_posts)
    ∧ (1 ≤ num_posts → 0 ≤ start_hour → start_hour ≤ 23 →
        (List.range num_posts).any (overflows todayOrd start_hour
          (Int.fdiv ((end_hour - start_hour) * 60) num_posts)) = true →
        get_time_intervals_at todayOrd start_hour end_hour num_posts =
          Except.error "OverflowError") := by
  refine ⟨rfl, ?_, ?_⟩
  · intro h1 h0 h23 hov
    have hfalse : (List.range num_posts).any (overflows todayOrd start_hour
        (Int.fdiv ((end_hour - start_hour) * 60) num_posts)) = false := by
      rw [List.any_eq_false]
      intro i hi
      rw [List.mem_range] at hi
      simp [hov i hi]
    simp only [get_time_intervals_at]
    rw [if_neg (by omega), if_neg (by omega),
      if_neg (by rw [hfalse]; simp)]
    exact ⟨_, rfl, by rw [List.length_map, List.length_range]⟩
  · intro h1 h0 h23 hov
    simp only [get_time_intervals_at]
    rw [if_neg (by omega), if_neg (by omega), if_pos hov]

theorem c10_totality_amended_witness :
    get_time_intervals_at 738886 8 20 0 = Except.error "ZeroDivisionError"
    ∧ (∃ l, get_time_intervals_at 738886 8 20 5 = Except.ok l
        ∧ l.length = 5)
    ∧ get_time_intervals_at 1 0 1000000000 2 =
        Except.error "OverflowError" :=
  ⟨(c10_totality_amended 738886 8 20 5).1,
    (c10_totality_amended 738886 8 20 5).2.1 (by decide) (by decide)
      (by decide) (by decide),
    (c10_totality_amended 1 0 1000000000 2).2.2 (by decide) (by decide)
      (by decide) (by decide)⟩

/-- C1: an item returned by `get_random_posts` that was already in the
category's sent list before the call can only occur when the pool of
not-yet-sent items was smaller than the requested count; and in that reset
case the sent list afterwards is exactly the fresh selection and every
selected item is drawn from the full loaded pool. -/
theorem c1_select_no_repeat_unless_reset (seed n : Nat)
    (data sel : List Item) (c : Category) (t t' : Tracker)
    (hrun : get_random_posts seed (Except.ok data) n c t =
      Except.ok (sel, t')) :
    (∀ x ∈ sel, x ∈ t.get c →
      (data.filter fun p => !((t.get c).contains p)).length < n)
    ∧ ((data.filter fun p => !((t.get c).contains p)).length < n →
        t'.get c = sel ∧ ∀ x ∈ sel, x ∈ data) := by
  simp only [get_random_posts] at hrun
  by_cases h : (data.filter fun p => !((t.get c).contains p)).length < n
  · rw [if_pos h] at hrun
    simp only [Except.ok.injEq, Prod.mk.injEq] at hrun
    obtain ⟨hsel, ht'⟩ := hrun
    refine ⟨fun x _ _ => h, fun _ => ⟨?_, ?_⟩⟩
    · rw [← ht', Tracker.get_set_same, Tracker.get_set_same, ← hsel,
        List.nil_append]
    · intro x hx
      exact sample_mem (hsel ▸ hx)
  · rw [if_neg h] at hrun
    simp only [Except.ok.injEq, Prod.mk.injEq] at hrun
    obtain ⟨hsel, _⟩ := hrun
    refine ⟨?_, fun hlt => absurd hlt h⟩
    intro x hx hxt
    exfalso
    have hmem := sample_mem (hsel ▸ hx)
    have hpred := List.of_mem_filter hmem
    simp at hpred
    exact hpred hxt

theorem c1_select_no_repeat_unless_reset_witness :
    (([1] : List Item).filter fun p =>
      !((Tracker.get ⟨[1], [], [], []⟩ Category.forex).contains p)).length
        < 1 := by
  have h := c1_select_no_repeat_unless_reset 0 1 [1] [1] Category.forex
    ⟨[1], [], [], []⟩ ⟨[1], [], [], []⟩ rfl
  exact h.1 1 (by decide) (by decide)

/-- C4: evaluation at a failing input.  With 3 posts selected and every
send succeeding, the sleeps preceding the three dispatches are 0, 1800
and 3600 seconds: the code sleeps `idx * 1800` seconds before post `idx`,
so the gap between consecutive dispatches grows by 30 minutes per post
instead of staying at the fixed 30 minutes stated by the claim and by the
code's own comment and log message. -/
theorem c4_pacing_at_failing_input :
    schedule_post 0 (fun _ _ => false) (Except.ok [10, 20, 30]) 3
        Category.forex ⟨[], [], [], []⟩ =
      Except.ok (⟨[10, 20, 30], [], [], []⟩, [10, 20, 30],
        [SchedEvent.pace 0,
          SchedEvent.dispatch 10 [Event.attempt 0, Event.success],
          SchedEvent.pace 1800,
          SchedEvent.dispatch 20 [Event.attempt 0, Event.success],
          SchedEvent.pace 3600,
          SchedEvent.dispatch 30 [Event.attempt 0, Event.success]])
    ∧ paceList
        [SchedEvent.pace 0,
          SchedEvent.dispatch 10 [Event.attempt 0, Event.success],
          SchedEvent.pace 1800,
          SchedEvent.dispatch 20 [Event.attempt 0, Event.success],
          SchedEvent.pace 3600,
          SchedEvent.dispatch 30 [Event.attempt 0, Event.success]]
        ≠ [0, 1800, 1800] :=
  ⟨rfl, by decide⟩

/-- C5 counterexample: with an empty content list, `get_random_posts`
does not report a no-content error — it resets the sent list, samples
zero items and returns normally with an empty selection. -/
theorem c5_counterexample :
    get_random_posts 0 (Except.ok []) 5 Category.forex ⟨[], [], [], []⟩ =
      Except.ok ([], ⟨[], [], [], []⟩) := by
  rfl

/-- C5 amended: over an empty content list, `morning_post` and
`weekend_post` fail with the no-content (`IndexError`) failure, but
`get_random_posts` returns normally with an empty selection for every
category, seed, request size and tracker state. -/
theorem c5_empty_content_amended (seed n ci cj : Nat) (g g2 : Nat → Bool)
    (c : Category) (t t1 t2 : Tracker) :
    (∃ u, get_random_posts seed (Except.ok []) n c t = Except.ok ([], u))
    ∧ morning_post ci g (Except.ok []) t1 = Except.error "IndexError"
    ∧ weekend_post cj g2 (Except.ok []) t2 = Except.error "IndexError" := by
  refine ⟨?_, ?_, ?_⟩
  · simp only [get_random_posts, List.filter_nil]
    split
    · exact ⟨(t.set c []).set c [], by simp [sample]⟩
    · exact ⟨t.set c (t.get c), by simp [sample]⟩
  · simp [morning_post]
  · simp [weekend_post]

/-- C6 counterexample: in one cycle of `schedule_all_posts`, a failing
forex content load (`FileNotFoundError`) aborts the cycle with that
error, so the motivation selection of the same cycle never runs even
though its content load would succeed; a two-day run dies the same way,
so the next day's cycles never run either. -/
theorem c6_counterexample :
    schedule_cycle
        ⟨Except.error "FileNotFoundError", Except.ok [1, 2, 3, 4, 5], 0, 0,
          fun _ _ => false, fun _ _ => false⟩ ⟨[], [], [], []⟩ =
      Except.error "FileNotFoundError"
    ∧ schedule_all_posts
        (fun _ => ⟨Except.error "FileNotFoundError", Except.ok [1, 2, 3, 4, 5],
          0, 0, fun _ _ => false, fun _ _ => false⟩) 2 ⟨[], [], [], []⟩ =
      Except.error "FileNotFoundError" :=
  ⟨rfl, rfl⟩

/-- C6 amended: a failure of the forex selection cycle propagates out of
`schedule_all_posts` uncaught: the whole cycle evaluates to that error,
the motivation cycle of the same day does not run, and no later day of
the loop runs. -/
theorem c6_failure_propagates_amended (envs : Nat → CycleEnv) (t : Tracker)
    (e : String) (d : Nat)
    (hfail : (envs 0).forexLoad = Except.error e) :
    schedule_cycle (envs 0) t = Except.error e
    ∧ schedule_all_posts envs (d + 1) t = Except.error e := by
  have hcycle : schedule_cycle (envs 0) t = Except.error e := by
    simp [schedule_cycle, schedule_post, get_random_posts, hfail]
  exact ⟨hcycle, by simp [schedule_all_posts, hcycle]⟩

theorem c6_failure_propagates_amended_witness :
    schedule_cycle
        ⟨Except.error "DataUnavailable", Except.ok [1], 0, 0,
          fun _ _ => false, fun _ _ => false⟩ ⟨[], [], [], []⟩ =
      Except.error "DataUnavailable"
    ∧ schedule_all_posts
        (fun _ => ⟨Except.error "DataUnavailable", Except.ok [1], 0, 0,
          fun _ _ => false, fun _ _ => false⟩) 3 ⟨[], [], [], []⟩ =
      Except.error "DataUnavailable" :=
  c6_failure_propagates_amended
    (fun _ => ⟨Except.error "DataUnavailable", Except.ok [1], 0, 0,
      fun _ _ => false, fun _ _ => false⟩) ⟨[], [], [], []⟩
    "DataUnavailable" 2 rfl

/-- C8: after a successful `morning_post` (resp. `weekend_post`) the
morning (resp. weekend) sent list is exactly the one-element list holding
the newly chosen item, regardless of its prior contents. -/
theorem c8_single_item_sent_list (ci cj : Nat) (g g2 : Nat → Bool)
    (load load2 : Except String (List Item)) (t t2 : Tracker)
    (m w : Tracker × Item × List Event)
    (hm : morning_post ci g load t = Except.ok m)
    (hw : weekend_post cj g2 load2 t2 = Except.ok w) :
    m.1.get Category.morning = [m.2.1]
    ∧ w.1.get Category.weekend = [w.2.1] := by
  constructor
  · rw [morning_post_sets_single ci g load t m hm, Tracker.get_set_same]
  · rw [weekend_post_sets_single cj g2 load2 t2 w hw, Tracker.get_set_same]

theorem c8_single_item_sent_list_witness :
    Tracker.get ⟨[], [], [7], []⟩ Category.morning = [7]
    ∧ Tracker.get ⟨[], [], [], [7]⟩ Category.weekend = [7] :=
  c8_single_item_sent_list 0 0 (fun _ => false) (fun _ => false)
    (Except.ok [7]) (Except.ok [7, 8]) ⟨[], [], [5], []⟩ ⟨[], [], [], []⟩
    (⟨[], [], [7], []⟩, 7, [Event.attempt 0, Event.success])
    (⟨[], [], [], [7]⟩, 7, [Event.attempt 0, Event.success]) rfl rfl

/-- C9: dispatch never mutates the sent tracker.  The tracker returned by
`schedule_post` is exactly the tracker produced by the `get_random_posts`
selection step (so it is fixed before the first dispatch and unaffected
by any send failures), every selected item is already in that tracker's
sent list, and the tracker returned by `morning_post` is the pre-send
assignment of the one-element sent list. -/
theorem c9_dispatch_preserves_tracker (seed n ci : Nat)
    (fa : Nat → Nat → Bool) (g : Nat → Bool)
    (load load2 : Except String (List Item)) (c : Category)
    (t tm : Tracker) (r : Tracker × List Item × List SchedEvent)
    (m : Tracker × Item × List Event)
    (hr : schedule_post seed fa load n c t = Except.ok r)
    (hm : morning_post ci g load2 tm = Except.ok m) :
    get_random_posts seed load n c t = Except.ok (r.2.1, r.1)
    ∧ (∀ p ∈ r.2.1, p ∈ r.1.get c)
    ∧ m.1 = tm.set Category.morning [m.2.1] := by
  have hsel := schedule_post_selection seed n fa load c t r hr
  exact ⟨hsel, get_random_posts_marks_sent seed n load c t r.2.1 r.1 hsel,
    morning_post_sets_single ci g load2 tm m hm⟩

theorem c9_dispatch_preserves_tracker_witness :
    get_random_posts 0 (Except.ok [1, 2]) 1 Category.forex
        ⟨[], [], [], []⟩ = Except.ok ([1], ⟨[1], [], [], []⟩)
    ∧ (∀ p ∈ ([1] : List Item),
        p ∈ Tracker.get ⟨[1], [], [], []⟩ Category.forex)
    ∧ (⟨[], [], [7], []⟩ : Tracker) =
        Tracker.set ⟨[], [], [5], []⟩ Category.morning [7] :=
  c9_dispatch_preserves_tracker 0 1 0 (fun _ _ => false) (fun _ => false)
    (Except.ok [1, 2]) (Except.ok [7]) Category.forex ⟨[], [], [], []⟩
    ⟨[], [], [5], []⟩
    (⟨[1], [], [], []⟩, [1],
      [SchedEvent.pace 0, SchedEvent.dispatch 1 [Event.attempt 0, Event.success]])
    (⟨[], [], [7], []⟩, 7, [Event.attempt 0, Event.success]) rfl rfl
